import Mathlib

/-!
Shallow embedding of the streamlit-groceries-receipt-app core
(src/library/user_db.py, src/library/state.py, src/library/handler.py,
src/library/utils.py, src/library/settings.py, src/library/schemas.py,
app/main.py, app/tools/process_image.py) together with theorems checking
the natural-language specification against it.

Conventions:
* Python byte strings are `List Nat` (byte values).
* Wall-clock times are integers (seconds); `datetime.timedelta` comparisons
  become integer comparisons.
* External libraries (bcrypt, PIL, strptime, the two database drivers) are
  abstracted as explicit function parameters packed into environment
  structures; everything written in the repository itself is translated
  structurally.
* Python `dict`s are functions into `Option` updated pointwise.
-/

namespace GroceriesApp

/-- Python `bytes` as a list of byte values. -/
abbrev Bytes := List Nat

/-- `str.encode()` – UTF-8 encoding of a Python string. -/
def strEncode (s : String) : Bytes :=
  s.toUTF8.toList.map (fun b => b.toNat)

/-! ## user_db.py : User, RateLimiter, check_is_legit_user -/

/-- `class User(BaseModel)` from user_db.py: username and password,
each validated to be non-empty by the `min_length` field validator. -/
structure User where
  username : String
  password : String
deriving DecidableEq, Repr

/-- The `min_length` field validator on `User`: a value passes iff its
length is not zero.  `User(...)` construction succeeds iff both fields
pass; this is the pydantic validation entry point used by `do_login`. -/
def mkUser (username password : String) : Option User :=
  if username.length = 0 then none
  else if password.length = 0 then none
  else some ⟨username, password⟩

/-- `RATE_LIMIT_COUNT = 1` from user_db.py. -/
def RATE_LIMIT_COUNT : Int := 1

/-- `RATE_LIMIT_WINDOW = 60  # seconds` from user_db.py. -/
def RATE_LIMIT_WINDOW : Int := 60

/-- `class Attempt(BaseModel)`: per-username attempt record. -/
structure Attempt where
  count : Int
  last_time : Int
deriving DecidableEq, Repr

/-- The `attempts` dict of `RateLimiter`, a Python dict keyed by
username. -/
def RLState := String → Option Attempt

/-- Pointwise dict update `self.attempts[username] = a`. -/
def RLState.set (st : RLState) (username : String) (a : Attempt) : RLState :=
  fun u => if u = username then some a else st u

/-- The empty `RateLimiter()` state. -/
def RLState.empty : RLState := fun _ => none

/-- `RateLimiter.increment(self, username)` from user_db.py, with
`datetime.datetime.now()` passed in explicitly as `now`.
If the username is unknown a fresh record {count=1, last_time=now} is
stored; otherwise if `now - last_time > 60` seconds the record is reset
to {count=1, last_time=now}; otherwise only `count` is incremented
(the `else` branch of the source does not touch `last_time`). -/
def RateLimiter.increment (st : RLState) (now : Int) (username : String) : RLState :=
  match st username with
  | none => st.set username ⟨1, now⟩
  | some attempts =>
      if now - attempts.last_time > RATE_LIMIT_WINDOW then
        st.set username ⟨1, now⟩
      else
        st.set username ⟨attempts.count + 1, attempts.last_time⟩

/-- `RateLimiter.check_limit_exceeded(self, username)`: first calls
`increment`, then reads `self.attempts[username]` and compares the count
against `RATE_LIMIT_COUNT`.  Returns the boolean together with the
post-state.  (After `increment` the key is always present; the `none`
branch mirrors the `KeyError` that Python could raise and is proved
unreachable below.) -/
def RateLimiter.check_limit_exceeded (st : RLState) (now : Int) (username : String) :
    Bool × RLState :=
  let st' := RateLimiter.increment st now username
  match st' username with
  | some attempts => (attempts.count > RATE_LIMIT_COUNT, st')
  | none => (false, st')

/-- External collaborators of `check_is_legit_user`: availability probes
and hash lookups for the two credential backends, and `bcrypt.checkpw`. -/
structure DbEnv where
  sqlite_present : Bool
  postgresql_present : Bool
  sqlite_pw : String → Bytes
  postgresql_pw : String → Bytes
  checkpw : Bytes → Bytes → Bool

/-- The backend-selection ladder of `check_is_legit_user`:
sqlite probed first, then postgresql; `none` when neither is present. -/
def retrievedHash (env : DbEnv) (username : String) : Option Bytes :=
  if env.sqlite_present then some (env.sqlite_pw username)
  else if env.postgresql_present then some (env.postgresql_pw username)
  else none

/-- `check_is_legit_user(user)` from user_db.py, with the module-level
`rate_limiter` state passed explicitly and returned (the Python function
mutates it through `check_limit_exceeded`).  The source's
`retrieved_hashed_password is None` test can never fire (both lookup
helpers return `bytes`), so only the `== b""` test appears. -/
def check_is_legit_user (env : DbEnv) (st : RLState) (now : Int) (user : User) :
    Bool × RLState :=
  let p := RateLimiter.check_limit_exceeded st now user.username
  if p.1 then (false, p.2)
  else
    match retrievedHash env user.username with
    | none => (false, p.2)
    | some retrieved_hashed_password =>
        if retrieved_hashed_password = [] then (false, p.2)
        else
          (env.checkpw (strEncode user.password) retrieved_hashed_password, p.2)

/-! ## schemas.py : Shop, CategoryEnum, Item, Receipt -/

/-- `class Shop(BaseModel)` from schemas.py.  `total` is a Python float;
it is modelled as a rational since the repository only stores and copies
it, never computes with it. -/
structure Shop where
  name : String
  date_str : String
  time_str : String
  total : ℚ
deriving DecidableEq, Repr

/-- `class CategoryEnum(str, Enum)` from schemas.py. -/
inductive CategoryEnum where
  | fruits | vegetables | canned_good | dairy | meat | seafood | deli
  | spices | snacks | baked_good | beverages | pasta_rice_cereal
  | frozen_food | personal_care | health_care | household | baby | pet
deriving DecidableEq, Repr

/-- The string value of each `CategoryEnum` member. -/
def CategoryEnum.value : CategoryEnum → String
  | .fruits => "Fruits"
  | .vegetables => "Vegetables"
  | .canned_good => "Canned goods"
  | .dairy => "Dairy"
  | .meat => "Meat"
  | .seafood => "Fish and seafood"
  | .deli => "Deli"
  | .spices => "Spices"
  | .snacks => "Snacks"
  | .baked_good => "Bread and baked goods"
  | .beverages => "Beverages"
  | .pasta_rice_cereal => "Pasta, rice and cereal"
  | .frozen_food => "Frozen food"
  | .personal_care => "Personal care"
  | .health_care => "Health care"
  | .household => "Household supplies"
  | .baby => "Baby care items"
  | .pet => "Pet care items"

/-- Pydantic validation of a string against `CategoryEnum` (lookup by
value, as `Item(category="Fruits")` does). -/
def CategoryEnum.ofValue (s : String) : Option CategoryEnum :=
  ([.fruits, .vegetables, .canned_good, .dairy, .meat, .seafood, .deli,
    .spices, .snacks, .baked_good, .beverages, .pasta_rice_cereal,
    .frozen_food, .personal_care, .health_care, .household, .baby,
    .pet] : List CategoryEnum).find? (fun c => c.value = s)

/-- `class Item(BaseModel)` from schemas.py.  `price` and `mass` are
Python floats, modelled as rationals (stored and copied only). -/
structure Item where
  name : String
  price : ℚ
  count : Option Int := some 1
  mass : Option ℚ := none
  tax : Option String := none
  category : Option CategoryEnum := none
deriving DecidableEq, Repr

/-- `class Receipt(BaseModel)` from schemas.py. -/
structure Receipt where
  shop : Shop
  items : List Item
deriving DecidableEq, Repr

/-! ## settings.py : StoredFileNames -/

/-- `class StoredFileNames(BaseModel)` from settings.py with its default
file names. -/
structure StoredFileNames where
  original_image : String := "original-image.jpg"
  rotated_image : String := "rotated-image.jpg"
  cropped_image : String := "cropped-image.jpg"
  edited_image : String := "edited-image.jpg"
  shop_info_json : String := "shop-info.json"
  shop_info_parquet : String := "shop-info.parquet"
  items_info_json : String := "items-info.json"
  items_info_parquet : String := "items-info.parquet"
deriving DecidableEq, Repr

/-- Result of a Python `getattr` on a `StoredFileNames` instance: either
one of its eight string fields, or a bound method inherited from
`pydantic.BaseModel` (the code itself calls
`self.target_file_names.model_dump_json()` in handler.py, so such
attributes exist on every instance). -/
inductive PyAttrVal where
  | str (s : String)
  | boundMethod
deriving DecidableEq, Repr

/-- Python attribute lookup on a `StoredFileNames` instance, as exercised
by `hasattr`/`getattr` in `ImageHandler.get_target_file_path`.  The eight
declared fields resolve to their string values; the pydantic `BaseModel`
methods that provably exist on every instance resolve to bound methods;
`none` models `hasattr` returning false. -/
def StoredFileNames.pyattr (fn : StoredFileNames) (name : String) : Option PyAttrVal :=
  if name = "original_image" then some (.str fn.original_image)
  else if name = "rotated_image" then some (.str fn.rotated_image)
  else if name = "cropped_image" then some (.str fn.cropped_image)
  else if name = "edited_image" then some (.str fn.edited_image)
  else if name = "shop_info_json" then some (.str fn.shop_info_json)
  else if name = "shop_info_parquet" then some (.str fn.shop_info_parquet)
  else if name = "items_info_json" then some (.str fn.items_info_json)
  else if name = "items_info_parquet" then some (.str fn.items_info_parquet)
  else if name = "model_dump_json" ∨ name = "model_dump" ∨ name = "model_copy"
       ∨ name = "model_validate" ∨ name = "dict" ∨ name = "json"
       ∨ name = "copy" then some .boundMethod
  else none

/-! ## Paths, errors and the image handler -/

/-- A filesystem path of the shape `target_directory / file_name`, the
only shape the handler code builds. -/
structure FsPath where
  dir : String
  file : String
deriving DecidableEq, Repr

/-- The Python exceptions raised by the modelled code. -/
inductive PyErr where
  | valueError
  | typeError
  | fileNotFoundError
deriving DecidableEq, Repr

/-- `class ImageHandler(BaseModel)` from handler.py, parameterised over
the type `Img` of decoded PIL images (external to the repository). -/
structure ImageHandler (Img : Type) where
  target_directory : String
  original_image : Img
  original_image_bytes : Bytes
  original_file_name : String
  target_file_names : StoredFileNames := {}
  extracted_receipt_info : Option Receipt := none
  cropped : Bool := false
  rotated : Bool := false
  angle : ℚ := 0
  edited_image : Option Img := none
deriving DecidableEq, Repr

/-- `ImageHandler.get_target_file_path(self, name)` from handler.py:
`hasattr` failing raises a `ValueError`; otherwise the attribute value is
joined to the target directory with `/`, which raises a `TypeError` when
the attribute is a bound method rather than a string. -/
def ImageHandler.get_target_file_path {Img : Type}
    (h : ImageHandler Img) (name : String) : Except PyErr FsPath :=
  match h.target_file_names.pyattr name with
  | none => .error .valueError
  | some (.str s) => .ok ⟨h.target_directory, s⟩
  | some .boundMethod => .error .typeError

/-! ## Dataframes (schemas.py) and the filesystem -/

/-- One row of the shop dataframe built by `convert_to_dataframe_shop`
(columns `name, date, time, total, date_str, time_str`), parameterised
over the external `datetime.date`/`datetime.time` value types. -/
structure ShopRow (Date Time : Type) where
  name : String
  date : Option Date
  time : Option Time
  total : ℚ
  date_str : String
  time_str : String
deriving DecidableEq, Repr

/-- One row of the items dataframe built by `convert_to_dataframe_items`
(columns `name, price, count, mass, tax, category`); the `category`
column has polars type `pl.String`, holding the enum's string value. -/
structure ItemRow where
  name : String
  price : ℚ
  count : Option Int
  mass : Option ℚ
  tax : Option String
  category : Option String
deriving DecidableEq, Repr

/-- A polars dataframe of one of the two shapes the repository writes. -/
inductive DF (Date Time : Type) where
  | shop (rows : List (ShopRow Date Time))
  | items (rows : List ItemRow)
deriving DecidableEq, Repr

/-- Contents of a file on disk: raw bytes (images) or a dataframe in its
JSON or parquet encoding. -/
inductive FileData (Date Time : Type) where
  | bytes (bs : Bytes)
  | json (df : DF Date Time)
  | parquet (df : DF Date Time)
deriving DecidableEq, Repr

/-- The filesystem visible to the handler: which directories exist and
what each path holds. -/
structure FS (Date Time : Type) where
  dirExists : String → Bool
  files : FsPath → Option (FileData Date Time)

/-- Write (or overwrite) one file. -/
def FS.write {Date Time : Type} (fs : FS Date Time) (p : FsPath)
    (d : FileData Date Time) : FS Date Time :=
  { fs with files := fun q => if q = p then some d else fs.files q }

/-- `path.mkdir()`. -/
def FS.mkdir {Date Time : Type} (fs : FS Date Time) (dir : String) : FS Date Time :=
  { fs with dirExists := fun d => if d = dir then true else fs.dirExists d }

/-- External collaborators of the handler code: PIL JPEG encoding and
decoding, and the four `datetime.datetime.strptime` format calls made by
the `Shop.date` / `Shop.time` properties. -/
structure Ext (Img Date Time : Type) where
  jpegEncode : Img → Bytes
  imageOpen : Bytes → Img
  strptimeYmd : String → Option Date
  strptimeDmy : String → Option Date
  strptimeHM : String → Option Time
  strptimeHMS : String → Option Time

section HandlerOps

variable {Img Date Time : Type}

/-- The `Shop.date` property: try `%Y-%m-%d`, then `%d.%m.%Y`, else
`None`. -/
def Shop.date (ext : Ext Img Date Time) (s : Shop) : Option Date :=
  match ext.strptimeYmd s.date_str with
  | some d => some d
  | none =>
    match ext.strptimeDmy s.date_str with
    | some d => some d
    | none => none

/-- The `Shop.time` property: try `%H:%M`, then `%H:%M:%S`, else
`None`. -/
def Shop.time (ext : Ext Img Date Time) (s : Shop) : Option Time :=
  match ext.strptimeHM s.time_str with
  | some t => some t
  | none =>
    match ext.strptimeHMS s.time_str with
    | some t => some t
    | none => none

/-- `convert_to_dataframe_shop(receipt)` from schemas.py: a one-row
dataframe with the shop's fields plus the parsed `date`/`time`. -/
def convert_to_dataframe_shop (ext : Ext Img Date Time) (receipt : Receipt) :
    List (ShopRow Date Time) :=
  [{ name := receipt.shop.name
     date := Shop.date ext receipt.shop
     time := Shop.time ext receipt.shop
     total := receipt.shop.total
     date_str := receipt.shop.date_str
     time_str := receipt.shop.time_str }]

/-- `item.model_dump()` as stored under the polars item schema: the
`str`-valued enum member is kept as its string value under the
`pl.String` column type. -/
def item_model_dump (item : Item) : ItemRow :=
  { name := item.name
    price := item.price
    count := item.count
    mass := item.mass
    tax := item.tax
    category := item.category.map CategoryEnum.value }

/-- `convert_to_dataframe_items(receipt)` from schemas.py: one row per
item via `item.model_dump()`. -/
def convert_to_dataframe_items (receipt : Receipt) : List ItemRow :=
  receipt.items.map item_model_dump

/-- `Item(**d)` for one row dict: pydantic re-validates the category
string against `CategoryEnum` (an unknown string is a
`ValidationError`, modelled as `none`); the remaining optional fields
pass through, an explicit `None` staying `None`. -/
def item_from_dict (ir : ItemRow) : Option Item :=
  match ir.category with
  | none => some { name := ir.name, price := ir.price, count := ir.count,
                   mass := ir.mass, tax := ir.tax,
                   category := (none : Option CategoryEnum) }
  | some cs =>
      (CategoryEnum.ofValue cs).map fun c =>
        { name := ir.name, price := ir.price, count := ir.count,
          mass := ir.mass, tax := ir.tax, category := some c }

/-- `polars_info_dataframes_to_pydantic(shop, items)` from schemas.py:
`shop.to_dicts()[0]` (an `IndexError` on an empty frame, modelled as
`none`), then `Shop(**dict)` — pydantic ignores the extra `date`/`time`
keys — and `Item(**d)` per row, where an unknown category string fails
enum validation (modelled as `none`). -/
def polars_info_dataframes_to_pydantic (shop : List (ShopRow Date Time))
    (items : List ItemRow) : Option Receipt :=
  match shop with
  | [] => none
  | srow :: _ =>
    let s : Shop :=
      { name := srow.name, date_str := srow.date_str,
        time_str := srow.time_str, total := srow.total }
    (items.mapM item_from_dict).map fun its => ⟨s, its⟩

/-- The `image` argument of `save_image_as_jpg_file`, which accepts
`bytes | Image.Image`. -/
inductive JpgPayload (Img : Type) where
  | raw (bs : Bytes)
  | pil (im : Img)

/-- `save_image_as_jpg_file(image_path, image, overwrite, mkdir)` from
utils.py.  A missing parent directory raises `FileNotFoundError` unless
`mkdir`; an existing target file without `overwrite` is a logged-warning
skip; otherwise the file is written (raw bytes directly, a PIL image via
its JPEG encoding).  The `TypeError` branch for other argument types is
unrepresentable in `JpgPayload`. -/
def save_image_as_jpg_file (ext : Ext Img Date Time) (image_path : FsPath)
    (image : JpgPayload Img) (overwrite mkdir : Bool) (fs : FS Date Time) :
    Except PyErr (FS Date Time) :=
  if ¬ fs.dirExists image_path.dir ∧ ¬ mkdir then
    .error .fileNotFoundError
  else
    let fs := if ¬ fs.dirExists image_path.dir ∧ mkdir then fs.mkdir image_path.dir else fs
    if (fs.files image_path).isSome ∧ ¬ overwrite then
      .ok fs
    else
      .ok (fs.write image_path (.bytes (match image with
        | .raw bs => bs
        | .pil im => ext.jpegEncode im)))

/-- `save_dataframe(df, name, json_path, parquet_path, overwrite)` from
handler.py: each of the two encodings is written when its file is
missing or `overwrite` holds, otherwise skipped. -/
def save_dataframe (df : DF Date Time) (json_path parquet_path : FsPath)
    (overwrite : Bool) (fs : FS Date Time) : FS Date Time :=
  let fs :=
    if (fs.files json_path).isNone ∨ overwrite then fs.write json_path (.json df)
    else fs
  if (fs.files parquet_path).isNone ∨ overwrite then fs.write parquet_path (.parquet df)
  else fs

/-- `save_image(image, name, image_path, overwrite, mkdir)` from
handler.py; its `image is not None` guard is vacuous here since every
caller passes a present image. -/
def save_image (ext : Ext Img Date Time) (image : Img) (image_path : FsPath)
    (overwrite mkdir : Bool) (fs : FS Date Time) : Except PyErr (FS Date Time) :=
  save_image_as_jpg_file ext image_path (.pil image) overwrite mkdir fs

/-- `ImageHandler.save_original_image`. -/
def ImageHandler.save_original_image (ext : Ext Img Date Time) (h : ImageHandler Img)
    (mkdir overwrite : Bool) (fs : FS Date Time) : Except PyErr (FS Date Time) := do
  let image_path ← h.get_target_file_path "original_image"
  save_image ext h.original_image image_path overwrite mkdir fs

/-- `ImageHandler.save_edited_image`: a logged-error no-op when there is
no edited image. -/
def ImageHandler.save_edited_image (ext : Ext Img Date Time) (h : ImageHandler Img)
    (mkdir overwrite : Bool) (fs : FS Date Time) : Except PyErr (FS Date Time) := do
  let image_path ← h.get_target_file_path "edited_image"
  match h.edited_image with
  | none => return fs
  | some e => save_image ext e image_path overwrite mkdir fs

/-- `ImageHandler.save_images`. -/
def ImageHandler.save_images (ext : Ext Img Date Time) (h : ImageHandler Img)
    (mkdir overwrite : Bool) (fs : FS Date Time) : Except PyErr (FS Date Time) := do
  let fs ← h.save_original_image ext mkdir overwrite fs
  h.save_edited_image ext mkdir overwrite fs

/-- `ImageHandler.save_shop_info`: the shop dataframe's `time` column is
nulled (`pl.lit(None).alias("time")`) before both encodings are
written. -/
def ImageHandler.save_shop_info (ext : Ext Img Date Time) (h : ImageHandler Img)
    (overwrite : Bool) (fs : FS Date Time) : Except PyErr (FS Date Time) := do
  match h.extracted_receipt_info with
  | none => return fs
  | some r =>
    let shop := (convert_to_dataframe_shop ext r).map fun row => { row with time := none }
    let json_path ← h.get_target_file_path "shop_info_json"
    let parquet_path ← h.get_target_file_path "shop_info_parquet"
    return save_dataframe (.shop shop) json_path parquet_path overwrite fs

/-- `ImageHandler.save_items_info`; unlike the shop variant it makes no
external calls, the `Ext` argument only keeps the call shape uniform. -/
def ImageHandler.save_items_info (_ext : Ext Img Date Time) (h : ImageHandler Img)
    (overwrite : Bool) (fs : FS Date Time) : Except PyErr (FS Date Time) := do
  match h.extracted_receipt_info with
  | none => return fs
  | some r =>
    let items := convert_to_dataframe_items r
    let json_path ← h.get_target_file_path "items_info_json"
    let parquet_path ← h.get_target_file_path "items_info_parquet"
    return save_dataframe (.items items) json_path parquet_path overwrite fs

/-- `ImageHandler.save_receipt_info`. -/
def ImageHandler.save_receipt_info (ext : Ext Img Date Time) (h : ImageHandler Img)
    (overwrite : Bool) (fs : FS Date Time) : Except PyErr (FS Date Time) := do
  let fs ← h.save_shop_info ext overwrite fs
  h.save_items_info ext overwrite fs

/-- `ImageHandler.save(mkdir, overwrite)`: images first, then — when
extracted data is present (`if self.extracted_receipt_info:`, and a
pydantic model instance is always truthy) — the receipt info. -/
def ImageHandler.save (ext : Ext Img Date Time) (h : ImageHandler Img)
    (mkdir overwrite : Bool) (fs : FS Date Time) : Except PyErr (FS Date Time) := do
  let fs ← h.save_images ext mkdir overwrite fs
  if h.extracted_receipt_info.isSome then h.save_receipt_info ext overwrite fs
  else return fs

/-- `from_target_directory(target_directory)` from handler.py.  The
original image must exist (opened with PIL and read raw); the edited
image and the two parquet files are optional; the receipt is
reconstructed exactly when both parquet files are present.  Non-image
content under an image path (a PIL decoding failure) and a failing
pydantic reconstruction are folded into errors, branches that the save
path never produces. -/
def from_target_directory (ext : Ext Img Date Time) (target_directory : String)
    (fs : FS Date Time) : Except PyErr (ImageHandler Img) := do
  let file_names : StoredFileNames := {}
  let image_path : FsPath := ⟨target_directory, file_names.original_image⟩
  let image_bytes ← match fs.files image_path with
    | none => .error PyErr.fileNotFoundError
    | some (.bytes bs) => .ok bs
    | some _ => .error PyErr.typeError
  let handler : ImageHandler Img :=
    { target_directory := target_directory
      original_image := ext.imageOpen image_bytes
      original_image_bytes := image_bytes
      original_file_name := image_path.file
      target_file_names := file_names }
  let edited_image_path ← handler.get_target_file_path "edited_image"
  let handler ← match fs.files edited_image_path with
    | none => .ok handler
    | some (.bytes bs) => .ok { handler with edited_image := some (ext.imageOpen bs) }
    | some _ => .error PyErr.typeError
  let shop_path ← handler.get_target_file_path "shop_info_parquet"
  let shop_df ← match fs.files shop_path with
    | none => .ok none
    | some (.parquet (.shop rows)) => .ok (some rows)
    | some _ => .error PyErr.typeError
  let items_path ← handler.get_target_file_path "items_info_parquet"
  let items_df ← match fs.files items_path with
    | none => .ok none
    | some (.parquet (.items rows)) => .ok (some rows)
    | some _ => .error PyErr.typeError
  match shop_df, items_df with
  | some srows, some irows =>
    match polars_info_dataframes_to_pydantic srows irows with
    | some r => .ok { handler with extracted_receipt_info := some r }
    | none => .error PyErr.valueError
  | _, _ => .ok handler

end HandlerOps

/-! ## state.py : States, AppState, identify_image_processing_state -/

/-- `class States(str, Enum)` from state.py. -/
inductive States where
  | LOGIN | UPLOAD | ROTATE | CROP | EXTRACT | WRANGLE | SAVE | DONE
deriving DecidableEq, Repr

/-- `class AppState(BaseModel)` from state.py with its defaults. -/
structure AppState (Img : Type) where
  state : States := .LOGIN
  is_logged_in : Bool := false
  image_handler : Option (ImageHandler Img) := none
  username : Option String := none
deriving DecidableEq, Repr

/-- `identify_image_processing_state(handler)` from state.py. -/
def identify_image_processing_state {Img : Type} (handler : ImageHandler Img) : States :=
  if handler.extracted_receipt_info.isSome then States.WRANGLE
  else States.ROTATE

/-! ## app/main.py and app/tools/process_image.py : the wizard -/

/-- Outcome of a login form submission (`st.info`/`st.error` in
`do_login`). -/
inductive LoginOutcome where
  | success
  | failure
deriving DecidableEq, Repr

/-- What a submitted login form produced, with the module-level rate
limiter threaded through and a flag recording whether control reached
`check_is_legit_user`. -/
structure LoginResult (Img : Type) where
  outcome : LoginOutcome
  app : AppState Img
  rl : RLState
  auth_gate_invoked : Bool

section AppFlow

variable {Img : Type}

/-- The submit branch of `do_login` from app/main.py:
`User(...)` validation failing yields the generic "Login failed" without
ever calling `check_is_legit_user`; on a passing credential check the
app state gets `is_logged_in = True`, `state = UPLOAD` and the
username. -/
def do_login_submit (env : DbEnv) (st : RLState) (now : Int) (app : AppState Img)
    (username password : String) : LoginResult Img :=
  match mkUser username password with
  | none => ⟨.failure, app, st, false⟩
  | some user =>
    let p := check_is_legit_user env st now user
    if p.1 then
      ⟨.success,
       { app with is_logged_in := true, state := .UPLOAD, username := some user.username },
       p.2, true⟩
    else
      ⟨.failure, app, p.2, true⟩

/-- The button branch of `do_logout` from app/main.py: only
`is_logged_in` and `state` are assigned. -/
def do_logout (app : AppState Img) : AppState Img :=
  { app with is_logged_in := false, state := .LOGIN }

/-- One user-visible transition of the wizard, collecting every
assignment to `app_state.state` in app/main.py and
app/tools/process_image.py.  External inputs (the uploaded handler, the
edited images, the extraction result, the wrangled result) are
constructor arguments. -/
inductive WizardStep : AppState Img → AppState Img → Prop where
  | login_success (app : AppState Img) (username : String)
      (hlogged : app.is_logged_in = false) :
      WizardStep app
        { app with is_logged_in := true, state := .UPLOAD, username := some username }
  | upload (app : AppState Img) (h : ImageHandler Img)
      (hstate : app.state = .UPLOAD) :
      WizardStep app
        { app with image_handler := some h,
                   state := identify_image_processing_state h }
  | rotate (app : AppState Img) (h : ImageHandler Img) (a : ℚ) (e : Img)
      (hstate : app.state = .ROTATE) (hhandler : app.image_handler = some h) :
      WizardStep app
        { app with state := .CROP,
                   image_handler := some { h with angle := a, rotated := true,
                                                  edited_image := some e } }
  | crop (app : AppState Img) (h : ImageHandler Img) (e : Img)
      (hstate : app.state = .CROP) (hhandler : app.image_handler = some h) :
      WizardStep app
        { app with state := .EXTRACT,
                   image_handler := some { h with cropped := true,
                                                  edited_image := some e } }
  | extract (app : AppState Img) (h : ImageHandler Img) (r : Receipt)
      (hstate : app.state = .EXTRACT) (hhandler : app.image_handler = some h) :
      WizardStep app
        { app with state := .WRANGLE,
                   image_handler := some { h with extracted_receipt_info := some r } }
  | wrangle (app : AppState Img) (h : ImageHandler Img) (r : Receipt)
      (hstate : app.state = .WRANGLE) (hhandler : app.image_handler = some h) :
      WizardStep app
        { app with state := .DONE,
                   image_handler := some { h with extracted_receipt_info := some r } }
  | done (app : AppState Img) (hstate : app.state = .DONE) :
      WizardStep app { app with state := .UPLOAD }
  | logout (app : AppState Img) (hlogged : app.is_logged_in = true) :
      WizardStep app (do_logout app)

/-- States reachable from the fresh session state (`AppState()` with all
defaults) through wizard transitions. -/
def ReachableAppState (s : AppState Img) : Prop :=
  Relation.ReflTransGen WizardStep ({} : AppState Img) s

end AppFlow

/-! ## Concrete instances used to evaluate the model -/

/-- A bcrypt-free credential environment over one stored user. -/
def envOneUser : DbEnv :=
  { sqlite_present := true
    postgresql_present := false
    sqlite_pw := fun u => if u = "og" then [1, 2, 3] else []
    postgresql_pw := fun _ => []
    checkpw := fun pw hash => pw = strEncode "pw" && hash = [1, 2, 3] }

/-- A credential environment with both backends down. -/
def envNoDb : DbEnv :=
  { sqlite_present := false
    postgresql_present := false
    sqlite_pw := fun _ => []
    postgresql_pw := fun _ => []
    checkpw := fun _ _ => false }

/-- A minimal image handler over the trivial image type. -/
def hUnit : ImageHandler Unit :=
  { target_directory := "d"
    original_image := ()
    original_image_bytes := [1]
    original_file_name := "receipt.png" }

/-- A mid-wizard application state: logged in, handler loaded. -/
def appLoggedIn : AppState Unit :=
  { state := .DONE
    is_logged_in := true
    image_handler := some hUnit
    username := some "alice" }

/-- External functions over small concrete types: images are natural
numbers, JPEG encoding is the singleton byte list, decoding is the list
length. -/
def extNat : Ext Nat Unit Unit :=
  { jpegEncode := fun n => [n]
    imageOpen := fun bs => bs.length
    strptimeYmd := fun _ => none
    strptimeDmy := fun _ => none
    strptimeHM := fun _ => none
    strptimeHMS := fun _ => none }

/-- An empty filesystem in which every directory exists. -/
def fsEmpty : FS Unit Unit :=
  { dirExists := fun _ => true
    files := fun _ => none }

/-- A handler holding a PNG upload whose raw bytes differ from their
JPEG re-encoding. -/
def hReceipt : ImageHandler Nat :=
  { target_directory := "d"
    original_image := 7
    original_image_bytes := [9, 9]
    original_file_name := "receipt.png" }

/-- A one-item extracted receipt. -/
def receiptEx : Receipt :=
  { shop := { name := "Edeka", date_str := "2021-05-13", time_str := "16:46", total := 1234/100 }
    items := [{ name := "G&G Laug Brez", price := 123/100, count := some 2,
                mass := none, tax := some "A", category := some .baked_good }] }

/-- `hReceipt` after extraction. -/
def hReceiptExtracted : ImageHandler Nat :=
  { hReceipt with extracted_receipt_info := some receiptEx, edited_image := some 5 }

/-- External functions over the trivial types. -/
def extUnit : Ext Unit Unit Unit :=
  { jpegEncode := fun _ => []
    imageOpen := fun _ => ()
    strptimeYmd := fun _ => none
    strptimeDmy := fun _ => none
    strptimeHM := fun _ => none
    strptimeHMS := fun _ => none }

/-- A filesystem already holding an image file and the two encodings of
a dataframe. -/
def fsWithFiles : FS Unit Unit :=
  { dirExists := fun _ => true
    files := fun q =>
      if q = ⟨"d", "a.jpg"⟩ then some (.bytes [1])
      else if q = ⟨"d", "b.json"⟩ then some (.bytes [2])
      else if q = ⟨"d", "b.parquet"⟩ then some (.bytes [3])
      else none }

/-! ## Theorems -/

/-- After `increment`, the caller's key always holds a record (so the
subsequent `self.attempts[username]` lookup cannot raise). -/
theorem increment_lookup_self (st : RLState) (now : Int) (u : String) :
    (RateLimiter.increment st now u) u
      = some (match st u with
        | none => ⟨1, now⟩
        | some a =>
          if now - a.last_time > RATE_LIMIT_WINDOW then ⟨1, now⟩
          else ⟨a.count + 1, a.last_time⟩) := by
  unfold RateLimiter.increment
  cases st u
  · simp [RLState.set]
  · dsimp only
    split <;> simp [RLState.set]

/-- `check_limit_exceeded` always leaves behind exactly the state
produced by `increment` (the side-effecting check). -/
theorem check_limit_exceeded_snd (st : RLState) (now : Int) (u : String) :
    (RateLimiter.check_limit_exceeded st now u).2 = RateLimiter.increment st now u := by
  unfold RateLimiter.check_limit_exceeded
  dsimp only
  rw [increment_lookup_self]

/-- Reading after a write: the defining equation of `FS.write`. -/
theorem FS.files_write {Date Time : Type} (fs : FS Date Time) (p : FsPath)
    (d : FileData Date Time) (q : FsPath) :
    (fs.write p d).files q = if q = p then some d else fs.files q := rfl

/-- Writing a file does not change directory existence. -/
theorem FS.dirExists_write {Date Time : Type} (fs : FS Date Time) (p : FsPath)
    (d : FileData Date Time) : (fs.write p d).dirExists = fs.dirExists := rfl

/-- Creating a directory does not change file contents. -/
theorem FS.files_mkdir {Date Time : Type} (fs : FS Date Time) (dir : String) :
    (fs.mkdir dir).files = fs.files := rfl

/-- A fresh-target write through `save_image_as_jpg_file`: with the
parent directory present and no file at the path, the image is written
for either value of `overwrite`. -/
theorem save_image_as_jpg_file_fresh {Img Date Time : Type} (ext : Ext Img Date Time)
    (p : FsPath) (img : JpgPayload Img) (overwrite mkdir : Bool) (fs : FS Date Time)
    (hdir : fs.dirExists p.dir = true) (hmiss : fs.files p = none) :
    save_image_as_jpg_file ext p img overwrite mkdir fs
      = .ok (fs.write p (.bytes (match img with
          | .raw bs => bs
          | .pil im => ext.jpegEncode im))) := by
  unfold save_image_as_jpg_file
  simp [hdir, hmiss]

/-- A fresh-target `save_dataframe`: with neither file present, both
encodings are written for either value of `overwrite`. -/
theorem save_dataframe_fresh {Date Time : Type} (df : DF Date Time)
    (jp pp : FsPath) (overwrite : Bool) (fs : FS Date Time)
    (hj : fs.files jp = none) (hp : fs.files pp = none) (hne : pp ≠ jp) :
    save_dataframe df jp pp overwrite fs
      = (fs.write jp (.json df)).write pp (.parquet df) := by
  unfold save_dataframe
  simp [hj, FS.files_write, hne, hp]

/-- Looking a category member's own string value back up restores the
member: pydantic re-validation of `model_dump` output succeeds. -/
theorem CategoryEnum.ofValue_value (c : CategoryEnum) :
    CategoryEnum.ofValue c.value = some c := by
  cases c <;> rfl

/-- `Item(**item.model_dump())` reconstructs the item. -/
theorem item_from_dict_model_dump (i : Item) :
    item_from_dict (item_model_dump i) = some i := by
  cases i with
  | mk name price count mass tax category =>
    cases category with
    | none => rfl
    | some c =>
        simp [item_model_dump, item_from_dict, CategoryEnum.ofValue_value]

/-- Row-by-row reconstruction of a dumped item list. -/
theorem mapM_item_roundtrip (items : List Item) :
    (items.map item_model_dump).mapM item_from_dict = some items := by
  induction items with
  | nil => rfl
  | cons i rest ih =>
      simp only [List.map_cons, List.mapM_cons, item_from_dict_model_dump i, ih,
        Option.pure_def, Option.bind_eq_bind, Option.some_bind]

/-- Reading an unrelated path after a write. -/
theorem files_write_of_ne {Date Time : Type} (fs : FS Date Time) (p : FsPath)
    (d : FileData Date Time) (q : FsPath) (h : q ≠ p) :
    (fs.write p d).files q = fs.files q := by
  rw [FS.files_write, if_neg h]

/-- Paths in the same directory with distinct file names differ. -/
theorem fspath_ne_of_file_ne {td a b : String} (h : a ≠ b) :
    (⟨td, a⟩ : FsPath) ≠ ⟨td, b⟩ :=
  fun hq => h (congrArg FsPath.file hq)

/-- Sequencing after a successful step. -/
theorem except_bind_ok {ε α β : Type} (a : α) (f : α → Except ε β) :
    (Except.ok (ε := ε) a >>= f) = f a := rfl

/-- `pure` on `Except` is `ok`. -/
theorem except_pure {ε α : Type} (a : α) : (pure a : Except ε α) = Except.ok a := rfl

/-- Reconstructing the receipt from its two written dataframes restores
it exactly: the shop row keeps `name`, `total` and the raw
`date_str`/`time_str` strings that pydantic reads back (the nulled
`time` column and the parsed `date` column are ignored), and every item
row reconstructs through `Item(**d)`. -/
theorem polars_roundtrip {Img Date Time : Type} (ext : Ext Img Date Time) (r : Receipt) :
    polars_info_dataframes_to_pydantic
      ((convert_to_dataframe_shop ext r).map
        fun row => ({ row with time := none } : ShopRow Date Time))
      (convert_to_dataframe_items r) = some r := by
  unfold convert_to_dataframe_shop convert_to_dataframe_items
    polars_info_dataframes_to_pydantic
  simp only [List.map_cons, List.map_nil]
  rw [mapM_item_roundtrip]
  rfl

/-- Evaluating `from_target_directory` against a directory holding the
original image, possibly an edited image, and no parquet files. -/
theorem from_target_directory_eval_none {Img Date Time : Type}
    (ext : Ext Img Date Time) (td : String) (fs' : FS Date Time)
    (B : Bytes) (oE : Option Bytes)
    (h0 : fs'.files ⟨td, "original-image.jpg"⟩ = some (.bytes B))
    (hE : fs'.files ⟨td, "edited-image.jpg"⟩ = oE.map FileData.bytes)
    (hS : fs'.files ⟨td, "shop-info.parquet"⟩ = none)
    (hI : fs'.files ⟨td, "items-info.parquet"⟩ = none) :
    ∃ h', from_target_directory ext td fs' = .ok h'
      ∧ h'.original_image_bytes = B
      ∧ h'.original_file_name = "original-image.jpg"
      ∧ h'.extracted_receipt_info = none := by
  cases oE with
  | none =>
      rw [Option.map_none'] at hE
      have heval : from_target_directory ext td fs'
          = .ok { target_directory := td, original_image := ext.imageOpen B,
                  original_image_bytes := B,
                  original_file_name := "original-image.jpg" } := by
        unfold from_target_directory
        simp [h0, hE, hS, hI, ImageHandler.get_target_file_path,
          StoredFileNames.pyattr, except_bind_ok, except_pure]
      exact ⟨_, heval, rfl, rfl, rfl⟩
  | some bs =>
      rw [Option.map_some'] at hE
      have heval : from_target_directory ext td fs'
          = .ok { target_directory := td, original_image := ext.imageOpen B,
                  original_image_bytes := B,
                  original_file_name := "original-image.jpg",
                  edited_image := some (ext.imageOpen bs) } := by
        unfold from_target_directory
        simp [h0, hE, hS, hI, ImageHandler.get_target_file_path,
          StoredFileNames.pyattr, except_bind_ok, except_pure]
      exact ⟨_, heval, rfl, rfl, rfl⟩

/-- Evaluating `from_target_directory` against a directory holding the
original image, possibly an edited image, and both parquet files with a
successfully reconstructing receipt. -/
theorem from_target_directory_eval_some {Img Date Time : Type}
    (ext : Ext Img Date Time) (td : String) (fs' : FS Date Time)
    (B : Bytes) (oE : Option Bytes) (srows : List (ShopRow Date Time))
    (irows : List ItemRow) (r : Receipt)
    (h0 : fs'.files ⟨td, "original-image.jpg"⟩ = some (.bytes B))
    (hE : fs'.files ⟨td, "edited-image.jpg"⟩ = oE.map FileData.bytes)
    (hS : fs'.files ⟨td, "shop-info.parquet"⟩ = some (.parquet (.shop srows)))
    (hI : fs'.files ⟨td, "items-info.parquet"⟩ = some (.parquet (.items irows)))
    (hrec : polars_info_dataframes_to_pydantic srows irows = some r) :
    ∃ h', from_target_directory ext td fs' = .ok h'
      ∧ h'.original_image_bytes = B
      ∧ h'.original_file_name = "original-image.jpg"
      ∧ h'.extracted_receipt_info = some r := by
  cases oE with
  | none =>
      rw [Option.map_none'] at hE
      have heval : from_target_directory ext td fs'
          = .ok { target_directory := td, original_image := ext.imageOpen B,
                  original_image_bytes := B,
                  original_file_name := "original-image.jpg",
                  extracted_receipt_info := some r } := by
        unfold from_target_directory
        simp [h0, hE, hS, hI, hrec, ImageHandler.get_target_file_path,
          StoredFileNames.pyattr, except_bind_ok, except_pure]
      exact ⟨_, heval, rfl, rfl, rfl⟩
  | some bs =>
      rw [Option.map_some'] at hE
      have heval : from_target_directory ext td fs'
          = .ok { target_directory := td, original_image := ext.imageOpen B,
                  original_image_bytes := B,
                  original_file_name := "original-image.jpg",
                  edited_image := some (ext.imageOpen bs),
                  extracted_receipt_info := some r } := by
        unfold from_target_directory
        simp [h0, hE, hS, hI, hrec, ImageHandler.get_target_file_path,
          StoredFileNames.pyattr, except_bind_ok, except_pure]
      exact ⟨_, heval, rfl, rfl, rfl⟩

/-- Persisting the receipt info (when present) into a directory that
already holds the two image files and nothing else, then reloading,
restores the handler's extracted data exactly. -/
theorem save_receipt_and_reload {Img Date Time : Type} (ext : Ext Img Date Time)
    (h : ImageHandler Img) (overwrite : Bool) (fs2 : FS Date Time) (oE : Option Bytes)
    (hfn : h.target_file_names = {})
    (horig : fs2.files ⟨h.target_directory, "original-image.jpg"⟩
        = some (.bytes (ext.jpegEncode h.original_image)))
    (hedit : fs2.files ⟨h.target_directory, "edited-image.jpg"⟩ = oE.map FileData.bytes)
    (hfree : ∀ g, g ≠ "original-image.jpg" → g ≠ "edited-image.jpg" →
        fs2.files ⟨h.target_directory, g⟩ = none) :
    ∃ fs', (if h.extracted_receipt_info.isSome
              then h.save_receipt_info ext overwrite fs2
              else .ok fs2) = .ok fs'
      ∧ ∃ h', from_target_directory ext h.target_directory fs' = .ok h'
        ∧ h'.original_image_bytes = ext.jpegEncode h.original_image
        ∧ h'.original_file_name = "original-image.jpg"
        ∧ h'.extracted_receipt_info = h.extracted_receipt_info := by
  have e_sj : h.get_target_file_path "shop_info_json"
      = .ok ⟨h.target_directory, "shop-info.json"⟩ := by
    unfold ImageHandler.get_target_file_path; rw [hfn]; rfl
  have e_sp : h.get_target_file_path "shop_info_parquet"
      = .ok ⟨h.target_directory, "shop-info.parquet"⟩ := by
    unfold ImageHandler.get_target_file_path; rw [hfn]; rfl
  have e_ij : h.get_target_file_path "items_info_json"
      = .ok ⟨h.target_directory, "items-info.json"⟩ := by
    unfold ImageHandler.get_target_file_path; rw [hfn]; rfl
  have e_ip : h.get_target_file_path "items_info_parquet"
      = .ok ⟨h.target_directory, "items-info.parquet"⟩ := by
    unfold ImageHandler.get_target_file_path; rw [hfn]; rfl
  cases heri : h.extracted_receipt_info with
  | none =>
      obtain ⟨h', hh', c1, c2, c3⟩ := from_target_directory_eval_none ext
        h.target_directory fs2 (ext.jpegEncode h.original_image) oE horig hedit
        (hfree _ (by decide) (by decide)) (hfree _ (by decide) (by decide))
      exact ⟨fs2, by simp, h', hh', c1, c2, c3⟩
  | some r =>
      have es : h.save_shop_info ext overwrite fs2
          = .ok ((fs2.write ⟨h.target_directory, "shop-info.json"⟩
              (.json (.shop ((convert_to_dataframe_shop ext r).map
                fun row => ({ row with time := none } : ShopRow Date Time))))).write
              ⟨h.target_directory, "shop-info.parquet"⟩
              (.parquet (.shop ((convert_to_dataframe_shop ext r).map
                fun row => ({ row with time := none } : ShopRow Date Time))))) := by
        unfold ImageHandler.save_shop_info
        rw [heri]
        dsimp only
        simp only [e_sj, e_sp, except_bind_ok, except_pure]
        rw [save_dataframe_fresh _ _ _ _ _ (hfree _ (by decide) (by decide))
            (hfree _ (by decide) (by decide)) (fspath_ne_of_file_ne (by decide))]
      have ei2 : h.save_items_info ext overwrite
            ((fs2.write ⟨h.target_directory, "shop-info.json"⟩
              (.json (.shop ((convert_to_dataframe_shop ext r).map
                fun row => ({ row with time := none } : ShopRow Date Time))))).write
              ⟨h.target_directory, "shop-info.parquet"⟩
              (.parquet (.shop ((convert_to_dataframe_shop ext r).map
                fun row => ({ row with time := none } : ShopRow Date Time)))))
          = .ok ((((fs2.write ⟨h.target_directory, "shop-info.json"⟩
              (.json (.shop ((convert_to_dataframe_shop ext r).map
                fun row => ({ row with time := none } : ShopRow Date Time))))).write
              ⟨h.target_directory, "shop-info.parquet"⟩
              (.parquet (.shop ((convert_to_dataframe_shop ext r).map
                fun row => ({ row with time := none } : ShopRow Date Time))))).write
              ⟨h.target_directory, "items-info.json"⟩
              (.json (.items (convert_to_dataframe_items r)))).write
              ⟨h.target_directory, "items-info.parquet"⟩
              (.parquet (.items (convert_to_dataframe_items r)))) := by
        unfold ImageHandler.save_items_info
        rw [heri]
        dsimp only
        simp only [e_ij, e_ip, except_bind_ok, except_pure]
        rw [save_dataframe_fresh _ _ _ _ _ ?_ ?_ (fspath_ne_of_file_ne (by decide))]
        · rw [files_write_of_ne _ _ _ _ (fspath_ne_of_file_ne (by decide)),
              files_write_of_ne _ _ _ _ (fspath_ne_of_file_ne (by decide))]
          exact hfree _ (by decide) (by decide)
        · rw [files_write_of_ne _ _ _ _ (fspath_ne_of_file_ne (by decide)),
              files_write_of_ne _ _ _ _ (fspath_ne_of_file_ne (by decide))]
          exact hfree _ (by decide) (by decide)
      have er : h.save_receipt_info ext overwrite fs2
          = .ok ((((fs2.write ⟨h.target_directory, "shop-info.json"⟩
              (.json (.shop ((convert_to_dataframe_shop ext r).map
                fun row => ({ row with time := none } : ShopRow Date Time))))).write
              ⟨h.target_directory, "shop-info.parquet"⟩
              (.parquet (.shop ((convert_to_dataframe_shop ext r).map
                fun row => ({ row with time := none } : ShopRow Date Time))))).write
              ⟨h.target_directory, "items-info.json"⟩
              (.json (.items (convert_to_dataframe_items r)))).write
              ⟨h.target_directory, "items-info.parquet"⟩
              (.parquet (.items (convert_to_dataframe_items r)))) := by
        unfold ImageHandler.save_receipt_info
        rw [es]
        simp only [except_bind_ok]
        exact ei2
      have r0 : ((((fs2.write ⟨h.target_directory, "shop-info.json"⟩
              (.json (.shop ((convert_to_dataframe_shop ext r).map
                fun row => ({ row with time := none } : ShopRow Date Time))))).write
              ⟨h.target_directory, "shop-info.parquet"⟩
              (.parquet (.shop ((convert_to_dataframe_shop ext r).map
                fun row => ({ row with time := none } : ShopRow Date Time))))).write
              ⟨h.target_directory, "items-info.json"⟩
              (.json (.items (convert_to_dataframe_items r)))).write
              ⟨h.target_directory, "items-info.parquet"⟩
              (.parquet (.items (convert_to_dataframe_items r)))).files
            ⟨h.target_directory, "original-image.jpg"⟩
          = some (.bytes (ext.jpegEncode h.original_image)) := by
        rw [files_write_of_ne _ _ _ _ (fspath_ne_of_file_ne (by decide)),
            files_write_of_ne _ _ _ _ (fspath_ne_of_file_ne (by decide)),
            files_write_of_ne _ _ _ _ (fspath_ne_of_file_ne (by decide)),
            files_write_of_ne _ _ _ _ (fspath_ne_of_file_ne (by decide))]
        exact horig
      have rE : ((((fs2.write ⟨h.target_directory, "shop-info.json"⟩
              (.json (.shop ((convert_to_dataframe_shop ext r).map
                fun row => ({ row with time := none } : ShopRow Date Time))))).write
              ⟨h.target_directory, "shop-info.parquet"⟩
              (.parquet (.shop ((convert_to_dataframe_shop ext r).map
                fun row => ({ row with time := none } : ShopRow Date Time))))).write
              ⟨h.target_directory, "items-info.json"⟩
              (.json (.items (convert_to_dataframe_items r)))).write
              ⟨h.target_directory, "items-info.parquet"⟩
              (.parquet (.items (convert_to_dataframe_items r)))).files
            ⟨h.target_directory, "edited-image.jpg"⟩
          = oE.map FileData.bytes := by
        rw [files_write_of_ne _ _ _ _ (fspath_ne_of_file_ne (by decide)),
            files_write_of_ne _ _ _ _ (fspath_ne_of_file_ne (by decide)),
            files_write_of_ne _ _ _ _ (fspath_ne_of_file_ne (by decide)),
            files_write_of_ne _ _ _ _ (fspath_ne_of_file_ne (by decide))]
        exact hedit
      have rS : ((((fs2.write ⟨h.target_directory, "shop-info.json"⟩
              (.json (.shop ((convert_to_dataframe_shop ext r).map
                fun row => ({ row with time := none } : ShopRow Date Time))))).write
              ⟨h.target_directory, "shop-info.parquet"⟩
              (.parquet (.shop ((convert_to_dataframe_shop ext r).map
                fun row => ({ row with time := none } : ShopRow Date Time))))).write
              ⟨h.target_directory, "items-info.json"⟩
              (.json (.items (convert_to_dataframe_items r)))).write
              ⟨h.target_directory, "items-info.parquet"⟩
              (.parquet (.items (convert_to_dataframe_items r)))).files
            ⟨h.target_directory, "shop-info.parquet"⟩
          = some (.parquet (.shop ((convert_to_dataframe_shop ext r).map
                fun row => ({ row with time := none } : ShopRow Date Time)))) := by
        rw [files_write_of_ne _ _ _ _ (fspath_ne_of_file_ne (by decide)),
            files_write_of_ne _ _ _ _ (fspath_ne_of_file_ne (by decide)),
            FS.files_write, if_pos rfl]
      have rI : ((((fs2.write ⟨h.target_directory, "shop-info.json"⟩
              (.json (.shop ((convert_to_dataframe_shop ext r).map
                fun row => ({ row with time := none } : ShopRow Date Time))))).write
              ⟨h.target_directory, "shop-info.parquet"⟩
              (.parquet (.shop ((convert_to_dataframe_shop ext r).map
                fun row => ({ row with time := none } : ShopRow Date Time))))).write
              ⟨h.target_directory, "items-info.json"⟩
              (.json (.items (convert_to_dataframe_items r)))).write
              ⟨h.target_directory, "items-info.parquet"⟩
              (.parquet (.items (convert_to_dataframe_items r)))).files
            ⟨h.target_directory, "items-info.parquet"⟩
          = some (.parquet (.items (convert_to_dataframe_items r))) := by
        rw [FS.files_write, if_pos rfl]
      obtain ⟨h', hh', c1, c2, c3⟩ := from_target_directory_eval_some ext
        h.target_directory _ (ext.jpegEncode h.original_image) oE
        ((convert_to_dataframe_shop ext r).map
          fun row => ({ row with time := none } : ShopRow Date Time))
        (convert_to_dataframe_items r) r r0 rE rS rI (polars_roundtrip ext r)
      refine ⟨_, ?_, h', hh', c1, c2, c3⟩
      simp only [Option.isSome_some, if_true]
      exact er

/-- A retrieved hash exists exactly when some backend is present. -/
theorem retrievedHash_none_iff (env : DbEnv) (u : String) :
    retrievedHash env u = none ↔
      (env.sqlite_present = false ∧ env.postgresql_present = false) := by
  unfold retrievedHash
  cases env.sqlite_present <;> cases env.postgresql_present <;> simp

/-- C3: `RateLimiter.check_limit_exceeded` first calls `increment` (every
check is side-effecting), then returns true exactly when the stored
count strictly exceeds the threshold `RATE_LIMIT_COUNT = 1`; hence the
first-ever call for a fresh username returns false, the second call
within the 60-second window returns true, and whenever it returns true
`check_is_legit_user` returns false regardless of the submitted
password. -/
theorem C3_check_limit_exceeded (st : RLState) (now now' : Int) (u : String)
    (env : DbEnv) (user : User)
    (hfresh : st u = none) (hwin : now' - now ≤ RATE_LIMIT_WINDOW) :
    RATE_LIMIT_COUNT = 1
    ∧ (∀ (st₀ : RLState) (t : Int) (v : String),
        (RateLimiter.check_limit_exceeded st₀ t v).2 = RateLimiter.increment st₀ t v)
    ∧ (∀ (st₀ : RLState) (t : Int) (v : String) (a : Attempt),
        (RateLimiter.increment st₀ t v) v = some a →
        ((RateLimiter.check_limit_exceeded st₀ t v).1 = true ↔ RATE_LIMIT_COUNT < a.count))
    ∧ (RateLimiter.check_limit_exceeded st now u).1 = false
    ∧ (RateLimiter.check_limit_exceeded
        (RateLimiter.check_limit_exceeded st now u).2 now' u).1 = true
    ∧ (∀ (st₀ : RLState) (t : Int),
        (RateLimiter.check_limit_exceeded st₀ t user.username).1 = true →
        (check_is_legit_user env st₀ t user).1 = false) := by
  have hcrit : ∀ (st₀ : RLState) (t : Int) (v : String) (a : Attempt),
      (RateLimiter.increment st₀ t v) v = some a →
      ((RateLimiter.check_limit_exceeded st₀ t v).1 = true ↔ RATE_LIMIT_COUNT < a.count) := by
    intro st₀ t v a ha
    unfold RateLimiter.check_limit_exceeded
    dsimp only
    rw [ha]
    simp
  have hinc1 : RateLimiter.increment st now u = st.set u ⟨1, now⟩ := by
    unfold RateLimiter.increment
    rw [hfresh]
  refine ⟨rfl, check_limit_exceeded_snd, hcrit, ?_, ?_, ?_⟩
  · have h := hcrit st now u ⟨1, now⟩ (by rw [increment_lookup_self, hfresh])
    cases hb : (RateLimiter.check_limit_exceeded st now u).1
    · rfl
    · exact absurd (h.mp hb) (by decide : ¬ RATE_LIMIT_COUNT < (1 : Int))
  · have hlook1 : (st.set u ⟨1, now⟩) u = some ⟨1, now⟩ := by simp [RLState.set]
    have hinc2 : RateLimiter.increment (st.set u ⟨1, now⟩) now' u
        = (st.set u ⟨1, now⟩).set u ⟨1 + 1, now⟩ := by
      unfold RateLimiter.increment
      rw [hlook1]
      dsimp only
      rw [if_neg (show ¬ now' - now > RATE_LIMIT_WINDOW by omega)]
    rw [check_limit_exceeded_snd, hinc1,
        hcrit (st.set u ⟨1, now⟩) now' u ⟨1 + 1, now⟩ (by rw [hinc2]; simp [RLState.set])]
    show RATE_LIMIT_COUNT < (1 + 1 : Int)
    decide
  · intro st₀ t hlim
    unfold check_is_legit_user
    dsimp only
    rw [hlim]
    simp

/-- C3 witness: the statement evaluated at a fresh username, with the
second call 30 seconds after the first. -/
theorem C3_check_limit_exceeded_witness :
    RLState.empty "og" = none
    ∧ ((30 : Int) - (0 : Int) ≤ RATE_LIMIT_WINDOW)
    ∧ (RateLimiter.check_limit_exceeded RLState.empty 0 "og").1 = false
    ∧ (RateLimiter.check_limit_exceeded
        (RateLimiter.check_limit_exceeded RLState.empty 0 "og").2 30 "og").1 = true :=
  ⟨rfl, by decide,
   (C3_check_limit_exceeded RLState.empty 0 30 "og" envOneUser ⟨"og", "pw"⟩ rfl
      (by decide)).2.2.2.1,
   (C3_check_limit_exceeded RLState.empty 0 30 "og" envOneUser ⟨"og", "pw"⟩ rfl
      (by decide)).2.2.2.2.1⟩

/-- C1: for every User (non-empty username and password),
`check_is_legit_user(user)` returns true iff the rate limit for
user.username is not exceeded AND at least one credential backend
(sqlite probed first, then postgresql) is available AND the stored hash
retrieved for that username is non-empty AND bcrypt verification of the
submitted password (encoded to bytes) against that stored hash succeeds;
in particular it is false for any username/password when both backends
are unavailable. -/
theorem C1_check_is_legit_user (env : DbEnv) (st : RLState) (now : Int) (user : User)
    (_hu : user.username ≠ "") (_hp : user.password ≠ "") :
    ((check_is_legit_user env st now user).1 = true ↔
      ((RateLimiter.check_limit_exceeded st now user.username).1 = false
        ∧ (env.sqlite_present = true ∨ env.postgresql_present = true)
        ∧ ∃ hash, retrievedHash env user.username = some hash ∧ hash ≠ []
            ∧ env.checkpw (strEncode user.password) hash = true))
    ∧ ((env.sqlite_present = false ∧ env.postgresql_present = false) →
        (check_is_legit_user env st now user).1 = false) := by
  constructor
  · unfold check_is_legit_user
    dsimp only
    cases hb : (RateLimiter.check_limit_exceeded st now user.username).1
    · simp only [Bool.false_eq_true, if_false]
      cases hr : retrievedHash env user.username with
      | none =>
          have hno := (retrievedHash_none_iff env user.username).mp hr
          simp [hno.1, hno.2]
      | some hash =>
          by_cases hempty : hash = []
          · simp [hempty]
          · have havail : env.sqlite_present = true ∨ env.postgresql_present = true := by
              by_contra hcon
              push_neg at hcon
              simp only [ne_eq, Bool.not_eq_true] at hcon
              rw [(retrievedHash_none_iff env user.username).mpr ⟨hcon.1, hcon.2⟩] at hr
              exact Option.noConfusion hr
            simp [hempty, havail]
    · simp
  · intro ⟨hsq, hpg⟩
    unfold check_is_legit_user
    dsimp only
    rw [(retrievedHash_none_iff env user.username).mpr ⟨hsq, hpg⟩]
    cases hb : (RateLimiter.check_limit_exceeded st now user.username).1 <;> simp

/-- C1 witness: the statement evaluated for a stored user with the
matching password against a fresh rate limiter. -/
theorem C1_check_is_legit_user_witness :
    (check_is_legit_user envOneUser RLState.empty 0 ⟨"og", "pw"⟩).1 = true ↔
      ((RateLimiter.check_limit_exceeded RLState.empty 0 "og").1 = false
        ∧ (envOneUser.sqlite_present = true ∨ envOneUser.postgresql_present = true)
        ∧ ∃ hash, retrievedHash envOneUser "og" = some hash ∧ hash ≠ []
            ∧ envOneUser.checkpw (strEncode "pw") hash = true) :=
  (C1_check_is_legit_user envOneUser RLState.empty 0 ⟨"og", "pw"⟩
    (by decide) (by decide)).1

/-- C4: for every ImageHandler, `identify_image_processing_state` returns
WRANGLE when `extracted_receipt_info` is not None and ROTATE otherwise,
for any combination of the cropped and rotated flags, the angle value,
and the presence or absence of an edited image. -/
theorem C4_identify_image_processing_state {Img : Type} (handler : ImageHandler Img) :
    (identify_image_processing_state handler = States.WRANGLE ↔
      handler.extracted_receipt_info ≠ none)
    ∧ (identify_image_processing_state handler = States.ROTATE ↔
      handler.extracted_receipt_info = none) := by
  unfold identify_image_processing_state
  cases h : handler.extracted_receipt_info <;> simp [h]

/-- C2 counterexample: with an existing record {count = 1, last_time = 0}
for "alice", an increment at time 30 (inside the 60-second window) yields
{count = 2, last_time = 0}: the count is incremented but `last_time` is
NOT refreshed to 30, so the window does not slide forward as the claim
states. -/
theorem C2_counterexample :
    RateLimiter.increment (RLState.empty.set "alice" ⟨1, 0⟩) 30 "alice" "alice"
      = some ⟨2, 0⟩
    ∧ RateLimiter.increment (RLState.empty.set "alice" ⟨1, 0⟩) 30 "alice" "alice"
      ≠ some ⟨2, 30⟩ := by
  constructor <;> decide

/-- C2 (amended): for every username with an existing attempt record,
`RateLimiter.increment` within the 60-second window increments count and
leaves `last_time` unchanged (the window stays anchored at the time
stored when the record was created or last reset); if the elapsed time
exceeds 60s the record is reset to count = 1 with last_time = now. -/
theorem C2_increment_window (st : RLState) (now : Int) (u : String) (a : Attempt)
    (hrec : st u = some a) :
    (now - a.last_time ≤ RATE_LIMIT_WINDOW →
      RateLimiter.increment st now u = st.set u ⟨a.count + 1, a.last_time⟩)
    ∧ (RATE_LIMIT_WINDOW < now - a.last_time →
      RateLimiter.increment st now u = st.set u ⟨1, now⟩) := by
  unfold RateLimiter.increment
  rw [hrec]
  dsimp only
  constructor
  · intro hle
    rw [if_neg (show ¬ now - a.last_time > RATE_LIMIT_WINDOW by omega)]
  · intro hgt
    rw [if_pos (show now - a.last_time > RATE_LIMIT_WINDOW by omega)]

/-- C2 witness: the amended statement evaluated at a concrete record. -/
theorem C2_increment_window_witness :
    (RLState.empty.set "u" ⟨1, 0⟩) "u" = some ⟨1, 0⟩
    ∧ ((30 : Int) - (0 : Int) ≤ RATE_LIMIT_WINDOW)
    ∧ RateLimiter.increment (RLState.empty.set "u" ⟨1, 0⟩) 30 "u"
        = (RLState.empty.set "u" ⟨1, 0⟩).set "u" ⟨2, 0⟩ :=
  ⟨by decide, by decide,
    (C2_increment_window (RLState.empty.set "u" ⟨1, 0⟩) 30 "u" ⟨1, 0⟩ (by decide)).1
      (by decide)⟩

/-- C5 counterexample: saving a handler created from an uploaded file
named "receipt.png" whose raw bytes [9, 9] differ from the JPEG
re-encoding of its decoded image, then reloading from the target
directory, yields original_file_name "original-image.jpg" (not
"receipt.png") and original-image bytes [7] (the re-encoding written by
save, not the original [9, 9]). -/
theorem C5_counterexample :
    ((hReceipt.save extNat true false fsEmpty).toOption.bind
        fun fs' => (from_target_directory extNat "d" fs').toOption).map
        (fun h' => h'.original_file_name) = some "original-image.jpg"
    ∧ hReceipt.original_file_name = "receipt.png"
    ∧ ("original-image.jpg" : String) ≠ "receipt.png"
    ∧ ((hReceipt.save extNat true false fsEmpty).toOption.bind
        fun fs' => (from_target_directory extNat "d" fs').toOption).map
        (fun h' => h'.original_image_bytes) = some [7]
    ∧ hReceipt.original_image_bytes = [9, 9]
    ∧ ([7] : Bytes) ≠ [9, 9] :=
  ⟨rfl, rfl, by decide, rfl, rfl, by decide⟩

/-- C5 (amended): persisting an ImageHandler that carries the default
stored file names into a fresh target directory via `save`, then
reloading with `from_target_directory`, reconstructs a handler whose
original-image bytes are the bytes `save` wrote — the JPEG encoding of
the original image, equal to the original bytes only when those bytes
already are that encoding — whose original file name is the stored
artifact name "original-image.jpg" rather than the persisted handler's
original name, and whose extracted shop and item records are identical
to the persisted ones (with the extracted data absent exactly when it
was absent before saving). -/
theorem C5_round_trip {Img Date Time : Type} (ext : Ext Img Date Time)
    (fs : FS Date Time) (h : ImageHandler Img) (mkdir overwrite : Bool)
    (hfn : h.target_file_names = {})
    (hdir : fs.dirExists h.target_directory = true)
    (hfresh : ∀ f, fs.files ⟨h.target_directory, f⟩ = none) :
    ∃ fs', h.save ext mkdir overwrite fs = .ok fs'
      ∧ ∃ h', from_target_directory ext h.target_directory fs' = .ok h'
        ∧ h'.original_image_bytes = ext.jpegEncode h.original_image
        ∧ h'.original_file_name = "original-image.jpg"
        ∧ h'.extracted_receipt_info = h.extracted_receipt_info := by
  have e_orig : h.get_target_file_path "original_image"
      = .ok ⟨h.target_directory, "original-image.jpg"⟩ := by
    unfold ImageHandler.get_target_file_path; rw [hfn]; rfl
  have e_edit : h.get_target_file_path "edited_image"
      = .ok ⟨h.target_directory, "edited-image.jpg"⟩ := by
    unfold ImageHandler.get_target_file_path; rw [hfn]; rfl
  have e1 : h.save_original_image ext mkdir overwrite fs
      = .ok (fs.write ⟨h.target_directory, "original-image.jpg"⟩
          (.bytes (ext.jpegEncode h.original_image))) := by
    unfold ImageHandler.save_original_image
    simp only [e_orig, except_bind_ok]
    unfold save_image
    rw [save_image_as_jpg_file_fresh ext _ _ _ _ fs hdir (hfresh _)]
  cases hei : h.edited_image with
  | none =>
      have e2 : h.save_edited_image ext mkdir overwrite
            (fs.write ⟨h.target_directory, "original-image.jpg"⟩
              (.bytes (ext.jpegEncode h.original_image)))
          = .ok (fs.write ⟨h.target_directory, "original-image.jpg"⟩
              (.bytes (ext.jpegEncode h.original_image))) := by
        unfold ImageHandler.save_edited_image
        simp only [e_edit, except_bind_ok]
        rw [hei]
        rfl
      have e12 : h.save_images ext mkdir overwrite fs
          = .ok (fs.write ⟨h.target_directory, "original-image.jpg"⟩
              (.bytes (ext.jpegEncode h.original_image))) := by
        unfold ImageHandler.save_images
        rw [e1]
        simp only [except_bind_ok]
        exact e2
      have hsave : h.save ext mkdir overwrite fs
          = (if h.extracted_receipt_info.isSome
              then h.save_receipt_info ext overwrite
                (fs.write ⟨h.target_directory, "original-image.jpg"⟩
                  (.bytes (ext.jpegEncode h.original_image)))
              else .ok (fs.write ⟨h.target_directory, "original-image.jpg"⟩
                  (.bytes (ext.jpegEncode h.original_image)))) := by
        unfold ImageHandler.save
        rw [e12]
        simp only [except_bind_ok]
        rfl
      have horig1 : (fs.write ⟨h.target_directory, "original-image.jpg"⟩
            (.bytes (ext.jpegEncode h.original_image))).files
            ⟨h.target_directory, "original-image.jpg"⟩
          = some (.bytes (ext.jpegEncode h.original_image)) := by
        rw [FS.files_write, if_pos rfl]
      have hedit1 : (fs.write ⟨h.target_directory, "original-image.jpg"⟩
            (.bytes (ext.jpegEncode h.original_image))).files
            ⟨h.target_directory, "edited-image.jpg"⟩
          = (none : Option Bytes).map FileData.bytes := by
        rw [files_write_of_ne _ _ _ _ (fspath_ne_of_file_ne (by decide))]
        exact hfresh _
      have hfree1 : ∀ g, g ≠ "original-image.jpg" → g ≠ "edited-image.jpg" →
          (fs.write ⟨h.target_directory, "original-image.jpg"⟩
            (.bytes (ext.jpegEncode h.original_image))).files
            ⟨h.target_directory, g⟩ = none := by
        intro g hg1 _hg2
        rw [files_write_of_ne _ _ _ _ (fspath_ne_of_file_ne hg1)]
        exact hfresh g
      obtain ⟨fs', hfs', rest⟩ := save_receipt_and_reload ext h overwrite
        (fs.write ⟨h.target_directory, "original-image.jpg"⟩
          (.bytes (ext.jpegEncode h.original_image))) none hfn horig1 hedit1 hfree1
      exact ⟨fs', by rw [hsave]; exact hfs', rest⟩
  | some e =>
      have e2 : h.save_edited_image ext mkdir overwrite
            (fs.write ⟨h.target_directory, "original-image.jpg"⟩
              (.bytes (ext.jpegEncode h.original_image)))
          = .ok ((fs.write ⟨h.target_directory, "original-image.jpg"⟩
              (.bytes (ext.jpegEncode h.original_image))).write
              ⟨h.target_directory, "edited-image.jpg"⟩
              (.bytes (ext.jpegEncode e))) := by
        unfold ImageHandler.save_edited_image
        simp only [e_edit, except_bind_ok]
        rw [hei]
        dsimp only
        unfold save_image
        rw [save_image_as_jpg_file_fresh ext _ _ _ _ _
          (by rw [FS.dirExists_write]; exact hdir)
          (by rw [files_write_of_ne _ _ _ _ (fspath_ne_of_file_ne (by decide))]
              exact hfresh _)]
      have e12 : h.save_images ext mkdir overwrite fs
          = .ok ((fs.write ⟨h.target_directory, "original-image.jpg"⟩
              (.bytes (ext.jpegEncode h.original_image))).write
              ⟨h.target_directory, "edited-image.jpg"⟩
              (.bytes (ext.jpegEncode e))) := by
        unfold ImageHandler.save_images
        rw [e1]
        simp only [except_bind_ok]
        exact e2
      have hsave : h.save ext mkdir overwrite fs
          = (if h.extracted_receipt_info.isSome
              then h.save_receipt_info ext overwrite
                ((fs.write ⟨h.target_directory, "original-image.jpg"⟩
                  (.bytes (ext.jpegEncode h.original_image))).write
                  ⟨h.target_directory, "edited-image.jpg"⟩
                  (.bytes (ext.jpegEncode e)))
              else .ok ((fs.write ⟨h.target_directory, "original-image.jpg"⟩
                  (.bytes (ext.jpegEncode h.original_image))).write
                  ⟨h.target_directory, "edited-image.jpg"⟩
                  (.bytes (ext.jpegEncode e)))) := by
        unfold ImageHandler.save
        rw [e12]
        simp only [except_bind_ok]
        rfl
      have horig2 : ((fs.write ⟨h.target_directory, "original-image.jpg"⟩
            (.bytes (ext.jpegEncode h.original_image))).write
            ⟨h.target_directory, "edited-image.jpg"⟩
            (.bytes (ext.jpegEncode e))).files
            ⟨h.target_directory, "original-image.jpg"⟩
          = some (.bytes (ext.jpegEncode h.original_image)) := by
        rw [files_write_of_ne _ _ _ _ (fspath_ne_of_file_ne (by decide)),
            FS.files_write, if_pos rfl]
      have hedit2 : ((fs.write ⟨h.target_directory, "original-image.jpg"⟩
            (.bytes (ext.jpegEncode h.original_image))).write
            ⟨h.target_directory, "edited-image.jpg"⟩
            (.bytes (ext.jpegEncode e))).files
            ⟨h.target_directory, "edited-image.jpg"⟩
          = (some (ext.jpegEncode e)).map FileData.bytes := by
        rw [FS.files_write, if_pos rfl]
        rfl
      have hfree2 : ∀ g, g ≠ "original-image.jpg" → g ≠ "edited-image.jpg" →
          ((fs.write ⟨h.target_directory, "original-image.jpg"⟩
            (.bytes (ext.jpegEncode h.original_image))).write
            ⟨h.target_directory, "edited-image.jpg"⟩
            (.bytes (ext.jpegEncode e))).files
            ⟨h.target_directory, g⟩ = none := by
        intro g hg1 hg2
        rw [files_write_of_ne _ _ _ _ (fspath_ne_of_file_ne hg2),
            files_write_of_ne _ _ _ _ (fspath_ne_of_file_ne hg1)]
        exact hfresh g
      obtain ⟨fs', hfs', rest⟩ := save_receipt_and_reload ext h overwrite
        ((fs.write ⟨h.target_directory, "original-image.jpg"⟩
          (.bytes (ext.jpegEncode h.original_image))).write
          ⟨h.target_directory, "edited-image.jpg"⟩
          (.bytes (ext.jpegEncode e))) (some (ext.jpegEncode e)) hfn
        horig2 hedit2 hfree2
      exact ⟨fs', by rw [hsave]; exact hfs', rest⟩

/-- C5 witness: the amended statement evaluated at a concrete extracted
handler over a fresh filesystem. -/
theorem C5_round_trip_witness :
    hReceiptExtracted.target_file_names = {}
    ∧ fsEmpty.dirExists hReceiptExtracted.target_directory = true
    ∧ (∃ fs', hReceiptExtracted.save extNat true false fsEmpty = .ok fs'
        ∧ ∃ h', from_target_directory extNat hReceiptExtracted.target_directory fs'
            = .ok h'
          ∧ h'.original_image_bytes = extNat.jpegEncode hReceiptExtracted.original_image
          ∧ h'.original_file_name = "original-image.jpg"
          ∧ h'.extracted_receipt_info = hReceiptExtracted.extracted_receipt_info) :=
  ⟨rfl, rfl,
   C5_round_trip extNat fsEmpty hReceiptExtracted true false rfl rfl (fun _ => rfl)⟩

/-- C6 counterexample: logging out of a mid-wizard session keeps the
image handler and the username, so the resulting AppState is not equal
to a freshly created one. -/
theorem C6_counterexample :
    do_logout appLoggedIn ≠ ({} : AppState Unit)
    ∧ (do_logout appLoggedIn).state = States.LOGIN
    ∧ (do_logout appLoggedIn).is_logged_in = false
    ∧ (do_logout appLoggedIn).username = some "alice"
    ∧ (do_logout appLoggedIn).image_handler = some hUnit := by
  refine ⟨fun hcontra => ?_, rfl, rfl, rfl, rfl⟩
  have := congrArg AppState.username hcontra
  simp [do_logout, appLoggedIn] at this

/-- C6 (amended): the logout action sets state = LOGIN and
is_logged_in = false, but does not reset the rest of the session's
AppState: the image_handler and username fields are retained, so the
result is generally not equal to a freshly created AppState. -/
theorem C6_do_logout {Img : Type} (app : AppState Img) :
    (do_logout app).state = States.LOGIN
    ∧ (do_logout app).is_logged_in = false
    ∧ (do_logout app).image_handler = app.image_handler
    ∧ (do_logout app).username = app.username :=
  ⟨rfl, rfl, rfl, rfl⟩

/-- C7: for every submission with an empty username or empty password,
`User` construction fails validation, so the login attempt is rejected
with the generic failure outcome and `check_is_legit_user` is never
invoked — the rate limiter state is returned unchanged and the
auth-gate-invoked flag is false, so no credential-backend lookup and no
rate-limiter increment happens. -/
theorem C7_empty_credentials {Img : Type} (env : DbEnv) (st : RLState) (now : Int)
    (app : AppState Img) (username password : String)
    (hempty : username = "" ∨ password = "") :
    mkUser username password = none
    ∧ do_login_submit env st now app username password
        = ⟨.failure, app, st, false⟩ := by
  have hnone : mkUser username password = none := by
    rcases hempty with h | h <;> subst h <;> unfold mkUser
    · rfl
    · split
      · rfl
      · rfl
  refine ⟨hnone, ?_⟩
  unfold do_login_submit
  rw [hnone]

/-- C7 witness: the statement evaluated at the empty submission. -/
theorem C7_empty_credentials_witness :
    mkUser "" "" = none
    ∧ do_login_submit envNoDb RLState.empty 0 ({} : AppState Unit) "" ""
        = ⟨.failure, {}, RLState.empty, false⟩ :=
  C7_empty_credentials envNoDb RLState.empty 0 ({} : AppState Unit) "" "" (Or.inl rfl)

/-- C9: the SAVE state is declared but unreachable — starting from the
initial AppState, no wizard transition ever assigns state = SAVE, so no
reachable AppState has state = SAVE. -/
theorem C9_SAVE_unreachable {Img : Type} (s : AppState Img)
    (hs : ReachableAppState s) : s.state ≠ States.SAVE := by
  unfold ReachableAppState at hs
  induction hs with
  | refl => simp
  | tail _ hstep ih =>
      cases hstep <;>
        simp only [do_logout, identify_image_processing_state] <;>
        first
          | (split <;> simp)
          | simp

/-- C9 witness: the fresh session state is reachable and is not SAVE. -/
theorem C9_SAVE_unreachable_witness : (({} : AppState Unit)).state ≠ States.SAVE :=
  C9_SAVE_unreachable ({} : AppState Unit) Relation.ReflTransGen.refl

/-- C8: for every persistence call (image or dataframe) with
overwrite = false whose target file already exists, the call returns
without raising an error and the existing file's contents are left
unchanged (a silent skip); with overwrite = true the file is
rewritten. -/
theorem C8_overwrite_policy {Img Date Time : Type} (ext : Ext Img Date Time)
    (fs : FS Date Time) (p jp pp : FsPath) (img : JpgPayload Img)
    (df : DF Date Time) (mkdir : Bool) (d dj dp : FileData Date Time)
    (hdir : fs.dirExists p.dir = true)
    (hexists : fs.files p = some d)
    (hj : fs.files jp = some dj) (hp : fs.files pp = some dp) :
    save_image_as_jpg_file ext p img false mkdir fs = .ok fs
    ∧ save_image_as_jpg_file ext p img true mkdir fs
        = .ok (fs.write p (.bytes (match img with
            | .raw bs => bs
            | .pil im => ext.jpegEncode im)))
    ∧ save_dataframe df jp pp false fs = fs
    ∧ save_dataframe df jp pp true fs
        = (fs.write jp (.json df)).write pp (.parquet df) := by
  refine ⟨?_, ?_, ?_, ?_⟩
  · unfold save_image_as_jpg_file
    simp [hdir, hexists]
  · unfold save_image_as_jpg_file
    simp [hdir]
  · unfold save_dataframe
    simp [hj, hp]
  · unfold save_dataframe
    simp

/-- C8 witness: the statement evaluated on a filesystem holding an image
file and both dataframe encodings. -/
theorem C8_overwrite_policy_witness :
    fsWithFiles.dirExists "d" = true
    ∧ fsWithFiles.files ⟨"d", "a.jpg"⟩ = some (.bytes [1])
    ∧ fsWithFiles.files ⟨"d", "b.json"⟩ = some (.bytes [2])
    ∧ fsWithFiles.files ⟨"d", "b.parquet"⟩ = some (.bytes [3])
    ∧ save_image_as_jpg_file extUnit ⟨"d", "a.jpg"⟩ (.raw [7]) false true fsWithFiles
        = .ok fsWithFiles
    ∧ save_dataframe (.items []) ⟨"d", "b.json"⟩ ⟨"d", "b.parquet"⟩ false fsWithFiles
        = fsWithFiles :=
  ⟨rfl, rfl, rfl, rfl,
   (C8_overwrite_policy extUnit fsWithFiles ⟨"d", "a.jpg"⟩ ⟨"d", "b.json"⟩
      ⟨"d", "b.parquet"⟩ (.raw [7]) (.items []) true (.bytes [1]) (.bytes [2])
      (.bytes [3]) rfl rfl rfl rfl).1,
   (C8_overwrite_policy extUnit fsWithFiles ⟨"d", "a.jpg"⟩ ⟨"d", "b.json"⟩
      ⟨"d", "b.parquet"⟩ (.raw [7]) (.items []) true (.bytes [1]) (.bytes [2])
      (.bytes [3]) rfl rfl rfl rfl).2.2.1⟩

/-- C10 counterexample: `"model_dump_json"` is not one of the eight
declared artifact kinds, yet `get_target_file_path` does not raise a
ValueError for it — the attribute exists on every pydantic model
instance (handler.py itself calls it), so the path join fails with a
TypeError instead. -/
theorem C10_counterexample :
    hUnit.get_target_file_path "model_dump_json" = .error .typeError
    ∧ PyErr.typeError ≠ PyErr.valueError :=
  ⟨rfl, by decide⟩

/-- C10 (amended): `get_target_file_path(name)` returns the target
directory joined with the stored file name for each of the eight
declared artifact kinds; it raises a ValueError exactly for names that
are not attributes of the StoredFileNames model; for a name that is an
inherited pydantic attribute, such as `model_dump_json`, it instead
fails with a TypeError when the bound method is joined to the path. -/
theorem C10_get_target_file_path {Img : Type} (h : ImageHandler Img) (name : String)
    (hmiss : h.target_file_names.pyattr name = none) :
    h.get_target_file_path name = .error .valueError
    ∧ (h.get_target_file_path "original_image"
        = .ok ⟨h.target_directory, h.target_file_names.original_image⟩)
    ∧ (h.get_target_file_path "rotated_image"
        = .ok ⟨h.target_directory, h.target_file_names.rotated_image⟩)
    ∧ (h.get_target_file_path "cropped_image"
        = .ok ⟨h.target_directory, h.target_file_names.cropped_image⟩)
    ∧ (h.get_target_file_path "edited_image"
        = .ok ⟨h.target_directory, h.target_file_names.edited_image⟩)
    ∧ (h.get_target_file_path "shop_info_json"
        = .ok ⟨h.target_directory, h.target_file_names.shop_info_json⟩)
    ∧ (h.get_target_file_path "shop_info_parquet"
        = .ok ⟨h.target_directory, h.target_file_names.shop_info_parquet⟩)
    ∧ (h.get_target_file_path "items_info_json"
        = .ok ⟨h.target_directory, h.target_file_names.items_info_json⟩)
    ∧ (h.get_target_file_path "items_info_parquet"
        = .ok ⟨h.target_directory, h.target_file_names.items_info_parquet⟩)
    ∧ h.get_target_file_path "model_dump_json" = .error .typeError := by
  refine ⟨?_, rfl, rfl, rfl, rfl, rfl, rfl, rfl, rfl, rfl⟩
  unfold ImageHandler.get_target_file_path
  rw [hmiss]

/-- C10 witness: the amended statement evaluated at a concrete handler
and a name that is not an attribute. -/
theorem C10_get_target_file_path_witness :
    hUnit.target_file_names.pyattr "bogus" = none
    ∧ hUnit.get_target_file_path "bogus" = .error .valueError :=
  ⟨rfl, (C10_get_target_file_path hUnit "bogus" rfl).1⟩

end GroceriesApp
